import Mathlib

/-!
Shallow embedding of the notes-app backend (FastAPI + Firestore).

The Firestore `notes` collection is modelled as a `List NoteDoc`; a document's
fields may be absent, so every field except the document id is an `Option`.
Timestamps are integers (the value of `datetime.timestamp()`); clock readings
(`datetime.utcnow()`) are passed explicitly to the operations that read the
clock.  Python's stable in-place `list.sort(key=...)` is modelled by
`List.mergeSort` with the "key of a is at most key of b" comparison, and
Python's slice `l[start:start+size]` by `(l.drop start).take size`.
-/

/-- A Firestore document in the `notes` collection, together with its id.
Fields other than the id can be absent from a document. -/
structure NoteDoc where
  id : String
  user_id : Option String
  title : Option String
  content : Option String
  is_pinned : Option Bool
  tags : Option (List String)
  color : Option String
  created_at : Option Int
  updated_at : Option Int
  synced : Option Bool
deriving DecidableEq

/-- Python `s.lower()` (ASCII case mapping, per character). -/
def strLower (s : String) : String := String.mk (s.data.map Char.toLower)

/-- Python `s.strip()`: remove leading and trailing whitespace. -/
def strTrim (s : String) : String :=
  String.mk (((s.data.dropWhile Char.isWhitespace).reverse.dropWhile
      Char.isWhitespace).reverse)

/-- Python `s.upper()` (ASCII case mapping, per character). -/
def strUpper (s : String) : String := String.mk (s.data.map Char.toUpper)

/-- Python `needle in hay` on strings: substring containment, decided by
scanning every start position. -/
def strContains (hay needle : String) : Bool :=
  (List.range (hay.data.length + 1)).any
    (fun i => needle.data.isPrefixOf (hay.data.drop i))

/-- `firebase_service.get_user_notes`, base query: documents whose `user_id`
field equals the requesting user's id (`FieldFilter('user_id', '==', user_id)`). -/
def queryByOwner (store : List NoteDoc) (user_id : String) : List NoteDoc :=
  store.filter (fun d => d.user_id == some user_id)

/-- The search condition of `get_user_notes` (lines 96-99): the lower-cased
term occurs in the lower-cased title, or in the lower-cased content, or in
some lower-cased tag.  Missing `title`/`content` default to `''`, missing
`tags` to `[]`. -/
def matchesSearch (s : String) (d : NoteDoc) : Bool :=
  strContains (strLower (d.title.getD "")) (strLower s)
    || strContains (strLower (d.content.getD "")) (strLower s)
    || (d.tags.getD []).any (fun tag => strContains (strLower tag) (strLower s))

/-- The filter step of `get_user_notes`: `if search:` is Python truthiness, so
an absent (`None`) or empty search keeps every note. -/
def keepNote (search : Option String) (d : NoteDoc) : Bool :=
  match search with
  | none => true
  | some s => if s = "" then true else matchesSearch s d

/-- First sort key of `get_user_notes` (line 106): `not x.get('is_pinned', False)`. -/
def pinnedKey (d : NoteDoc) : Bool := !(d.is_pinned.getD false)

/-- Second sort key of `get_user_notes` (line 107):
`-(x.get('updated_at').timestamp() if x.get('updated_at') else 0)`. -/
def timeKey (d : NoteDoc) : Int :=
  -(match d.updated_at with | some t => t | none => 0)

/-- Comparison used to model the stable `all_notes.sort(key=...)`: ascending
lexicographic order on the pair `(pinnedKey, timeKey)`. -/
def noteLe (a b : NoteDoc) : Bool :=
  (!(pinnedKey a) && pinnedKey b)
    || ((pinnedKey a == pinnedKey b) && decide (timeKey a ≤ timeKey b))

/-- Return value of `get_user_notes`. -/
structure NotesListResult where
  notes : List NoteDoc
  total : Nat
  page : Nat
  page_size : Nat
  total_pages : Nat
deriving DecidableEq

/-- `firebase_service.get_user_notes`: owner-scoped query, optional search
filter, stable two-key sort in memory, then slice `[start, start+page_size)`
with `start = (page-1)*page_size`. -/
def get_user_notes (store : List NoteDoc) (user_id : String)
    (search : Option String) (page page_size : Nat) : NotesListResult :=
  let all_notes := (queryByOwner store user_id).filter (keepNote search)
  let sorted_notes := all_notes.mergeSort noteLe
  let total := sorted_notes.length
  let start_idx := (page - 1) * page_size
  let paginated_notes := (sorted_notes.drop start_idx).take page_size
  { notes := paginated_notes
    total := total
    page := page
    page_size := page_size
    total_pages := (total + page_size - 1) / page_size }

/-- `firebase_service.get_note_by_id`: fetch the document with the given id;
`None` if it does not exist, `None` if its `user_id` field differs from the
caller (in Python, an absent `user_id` also compares unequal). -/
def get_note_by_id (store : List NoteDoc) (note_id user_id : String) :
    Option NoteDoc :=
  match store.find? (fun d => d.id == note_id) with
  | none => none
  | some d => if d.user_id == some user_id then some d else none

/-- The partial-update payload the `PUT /notes/{id}` endpoint builds: exactly
the fields of `NoteUpdate` that were supplied (non-`None`). -/
structure NoteUpdateData where
  title : Option String
  content : Option String
  is_pinned : Option Bool
  tags : Option (List String)
  color : Option String
deriving DecidableEq

/-- Firestore partial `update`: each key present in the update map overwrites
that field of the document; `update_note` always adds `updated_at = now` to
the map (its "remove None values" step never removes anything here because the
endpoint only put supplied fields in the map). -/
def applyNoteUpdate (u : NoteUpdateData) (now : Int) (d : NoteDoc) : NoteDoc :=
  { d with
    title := match u.title with | some v => some v | none => d.title
    content := match u.content with | some v => some v | none => d.content
    is_pinned := match u.is_pinned with | some v => some v | none => d.is_pinned
    tags := match u.tags with | some v => some v | none => d.tags
    color := match u.color with | some v => some v | none => d.color
    updated_at := some now }

/-- `firebase_service.update_note`: ownership check through `get_note_by_id`;
on failure return `False` and leave the store unchanged, otherwise apply the
partial update (plus `updated_at = now`) to the document with that id. -/
def update_note (store : List NoteDoc) (note_id user_id : String)
    (u : NoteUpdateData) (now : Int) : Bool × List NoteDoc :=
  match get_note_by_id store note_id user_id with
  | none => (false, store)
  | some _ =>
      (true, store.map (fun d => if d.id == note_id then applyNoteUpdate u now d else d))

/-- `firebase_service.delete_note`: ownership check through `get_note_by_id`;
on failure return `False`, otherwise delete the document with that id. -/
def delete_note (store : List NoteDoc) (note_id user_id : String) :
    Bool × List NoteDoc :=
  match get_note_by_id store note_id user_id with
  | none => (false, store)
  | some _ => (true, store.filter (fun d => !(d.id == note_id)))

/-- The validated `NoteModel` the create endpoint hands to
`firebase_service.create_note`. -/
structure NoteModel where
  user_id : String
  title : String
  content : String
  is_pinned : Bool
  tags : List String
  color : String
deriving DecidableEq

/-- `NoteModel.to_dict` as stored by `create_note`, with the store-generated
document id and the two clock readings taken by `create_note`
(`created_at = datetime.utcnow()` then `updated_at = datetime.utcnow()`). -/
def noteModelToDoc (m : NoteModel) (new_id : String) (created updated : Int) :
    NoteDoc :=
  { id := new_id
    user_id := some m.user_id
    title := some m.title
    content := some m.content
    is_pinned := some m.is_pinned
    tags := some m.tags
    color := some m.color
    created_at := some created
    updated_at := some updated
    synced := some true }

/-- `firebase_service.create_note`: set `created_at` from a first
`datetime.utcnow()` reading and `updated_at` from a second one, persist the
document under a store-generated id, and return that id (`doc_ref[1].id`). -/
def create_note (store : List NoteDoc) (m : NoteModel) (new_id : String)
    (t1 t2 : Int) : String × List NoteDoc :=
  (new_id, store ++ [noteModelToDoc m new_id t1 t2])

/-- Error taxonomy at the API boundary (spec section 7). -/
inductive ApiError where
  | validationError
  | notFound
  | storeError
deriving DecidableEq

/-- `GET /notes` (`get_notes` in `notes.py`): FastAPI evaluates the `Query`
constraints `page ge=1`, `page_size ge=1 le=100` before the handler body runs,
so out-of-range values produce a validation error without any store access;
otherwise the handler calls `get_user_notes`. -/
def get_notes_endpoint (store : List NoteDoc) (user_id : String)
    (search : Option String) (page page_size : Int) :
    Except ApiError NotesListResult :=
  if page < 1 || page_size < 1 || page_size > 100 then
    Except.error ApiError.validationError
  else
    Except.ok (get_user_notes store user_id search page.toNat page_size.toNat)

/-- Raw body of `POST /notes` before pydantic validation: `is_pinned`, `tags`
and `color` may be omitted (defaults `False`, `[]`, `"#FFFFFF"`). -/
structure NoteCreateInput where
  title : String
  content : String
  is_pinned : Option Bool
  tags : Option (List String)
  color : Option String
deriving DecidableEq

/-- `NoteBase.validate_not_empty`: reject an empty or whitespace-only value,
otherwise return the stripped value. -/
def validate_not_empty (v : String) : Except String String :=
  if v = "" || strTrim v = "" then
    Except.error "Field cannot be empty or whitespace"
  else
    Except.ok (strTrim v)

/-- `title` validation in `NoteBase`: the `Field(min_length=1, max_length=200)`
constraints run on the raw value, then `validate_not_empty`. -/
def validateTitle (v : String) : Except String String :=
  if v.length < 1 || v.length > 200 then Except.error "title length out of range"
  else validate_not_empty v

/-- `content` validation in `NoteBase`: `Field(min_length=1, max_length=10000)`
then `validate_not_empty`. -/
def validateContent (v : String) : Except String String :=
  if v.length < 1 || v.length > 10000 then Except.error "content length out of range"
  else validate_not_empty v

/-- The regex `^#[0-9A-Fa-f]{6}$` of the `color` field. -/
def matchesColorPattern (s : String) : Bool :=
  match s.data with
  | '#' :: rest =>
      rest.length == 6 &&
        rest.all (fun c => c.isDigit || ('A' ≤ c && c ≤ 'F') || ('a' ≤ c && c ≤ 'f'))
  | _ => false

/-- `color` validation in `NoteBase`: regex check on a supplied value, then
`validate_color` upper-cases it; an absent value defaults to `"#FFFFFF"`. -/
def validateColor : Option String → Except String String
  | none => Except.ok "#FFFFFF"
  | some v =>
      if matchesColorPattern v then Except.ok (strUpper v)
      else Except.error "color does not match pattern"

/-- The validated fields of a `NoteCreate` body. -/
structure NoteCreateParsed where
  title : String
  content : String
  is_pinned : Bool
  tags : List String
  color : String
deriving DecidableEq

/-- Pydantic validation of a `NoteCreate` body: every field validator must
succeed, with defaults for omitted optional fields. -/
def parseNoteCreate (i : NoteCreateInput) : Except String NoteCreateParsed :=
  match validateTitle i.title, validateContent i.content, validateColor i.color with
  | Except.ok t, Except.ok c, Except.ok col =>
      Except.ok
        { title := t
          content := c
          is_pinned := i.is_pinned.getD false
          tags := i.tags.getD []
          color := col }
  | Except.error e, _, _ => Except.error e
  | _, Except.error e, _ => Except.error e
  | _, _, Except.error e => Except.error e

/-- `POST /notes` (`create_note` in `notes.py`): pydantic validation of the
body happens before the handler body runs, so an invalid body is rejected
(422) without any store write; otherwise the handler builds a `NoteModel` for
the authenticated user and calls `firebase_service.create_note`. -/
def create_note_endpoint (store : List NoteDoc) (user_id : String)
    (i : NoteCreateInput) (new_id : String) (t1 t2 : Int) :
    Except String (String × List NoteDoc) :=
  match parseNoteCreate i with
  | Except.error e => Except.error e
  | Except.ok f =>
      Except.ok (create_note store
        { user_id := user_id
          title := f.title
          content := f.content
          is_pinned := f.is_pinned
          tags := f.tags
          color := f.color } new_id t1 t2)

/-! Spec-side definitions, written from the specification's words, to be
compared with the code-side definitions above. -/

/-- Spec: a note's pin status (default unpinned). -/
def specPinned (d : NoteDoc) : Bool := d.is_pinned.getD false

/-- Spec: the sort timestamp of a note, with an absent `updated_at` treated as
the zero/epoch value. -/
def specTime (d : NoteDoc) : Int := d.updated_at.getD 0

/-- Spec-side two-key comparator for the listing order: `a` may come before
`b` iff `a` is pinned and `b` is not, or they agree on pin status and `a` is
at least as recently updated (absent `updated_at` counting as epoch). -/
def specBefore (a b : NoteDoc) : Prop :=
  (specPinned a = true ∧ specPinned b = false)
    ∨ (specPinned a = specPinned b ∧ specTime b ≤ specTime a)

/-- Spec-side search predicate: the lower-cased search term occurs as a
substring of the lower-cased title, or of the lower-cased content, or of at
least one lower-cased tag entry. -/
def specMatches (s : String) (d : NoteDoc) : Prop :=
  (strLower s).data <:+: (strLower (d.title.getD "")).data
    ∨ (strLower s).data <:+: (strLower (d.content.getD "")).data
    ∨ ∃ tag, tag ∈ d.tags.getD [] ∧ (strLower s).data <:+: (strLower tag).data

/-! Concrete notes used by the spec's sorting example. -/

/-- Example note A: pinned, `updated_at = 10`. -/
def noteA : NoteDoc :=
  { id := "a", user_id := some "u1", title := some "A", content := some "alpha"
    is_pinned := some true, tags := some [], color := some "#FFFFFF"
    created_at := some 1, updated_at := some 10, synced := some true }

/-- Example note B: unpinned, `updated_at = 20`. -/
def noteB : NoteDoc :=
  { id := "b", user_id := some "u1", title := some "B", content := some "beta"
    is_pinned := some false, tags := some [], color := some "#FFFFFF"
    created_at := some 2, updated_at := some 20, synced := some true }

/-- Example note C: pinned, `updated_at = 5`. -/
def noteC : NoteDoc :=
  { id := "c", user_id := some "u1", title := some "C", content := some "gamma"
    is_pinned := some true, tags := some [], color := some "#FFFFFF"
    created_at := some 3, updated_at := some 5, synced := some true }

/-- The filtered (post-search, pre-pagination) set of `get_user_notes`. -/
def filteredNotes (store : List NoteDoc) (user_id : String)
    (search : Option String) : List NoteDoc :=
  (queryByOwner store user_id).filter (keepNote search)

/-- The sorted filtered list of `get_user_notes`, before pagination. -/
def sortedNotes (store : List NoteDoc) (user_id : String)
    (search : Option String) : List NoteDoc :=
  (filteredNotes store user_id search).mergeSort noteLe

instance specMatchesDecidable (s : String) (d : NoteDoc) :
    Decidable (specMatches s d) := by
  unfold specMatches
  exact inferInstance

/-- The update payload of a `PUT` request that supplies only a new title. -/
def updateTitleOnly (t : String) : NoteUpdateData :=
  { title := some t, content := none, is_pinned := none, tags := none, color := none }

/-- The update payload of a `PUT` request that supplies no fields at all. -/
def updateNothing : NoteUpdateData :=
  { title := none, content := none, is_pinned := none, tags := none, color := none }

/-- Frame property of a title-only update: it succeeds, keeps every other
note, and rewrites the target note's `title` and `updated_at` while leaving
`content`, `tags`, `color`, `is_pinned`, `id`, `user_id` and `created_at`
unchanged. -/
def titleOnlyUpdateFrame (store : List NoteDoc) (note_id user_id t : String)
    (now : Int) : Prop :=
  (update_note store note_id user_id (updateTitleOnly t) now).1 = true
  ∧ (∀ d ∈ store, d.id ≠ note_id →
      d ∈ (update_note store note_id user_id (updateTitleOnly t) now).2)
  ∧ (∀ d ∈ store, d.id = note_id →
      ∃ d' ∈ (update_note store note_id user_id (updateTitleOnly t) now).2,
        d'.title = some t ∧ d'.updated_at = some now
        ∧ d'.content = d.content ∧ d'.tags = d.tags ∧ d'.color = d.color
        ∧ d'.is_pinned = d.is_pinned ∧ d'.id = d.id ∧ d'.user_id = d.user_id
        ∧ d'.created_at = d.created_at)

/-- Frame property of any partial update: `updated_at` is always refreshed,
`id`, `user_id` and `created_at` never change, and every field whose update
value is absent keeps its stored value while every supplied field takes the
supplied value. -/
def partialUpdateFrame (u : NoteUpdateData) (now : Int) (e : NoteDoc) : Prop :=
  (applyNoteUpdate u now e).updated_at = some now
  ∧ (applyNoteUpdate u now e).id = e.id
  ∧ (applyNoteUpdate u now e).user_id = e.user_id
  ∧ (applyNoteUpdate u now e).created_at = e.created_at
  ∧ (u.title = none → (applyNoteUpdate u now e).title = e.title)
  ∧ (∀ v, u.title = some v → (applyNoteUpdate u now e).title = some v)
  ∧ (u.content = none → (applyNoteUpdate u now e).content = e.content)
  ∧ (∀ v, u.content = some v → (applyNoteUpdate u now e).content = some v)
  ∧ (u.is_pinned = none → (applyNoteUpdate u now e).is_pinned = e.is_pinned)
  ∧ (∀ v, u.is_pinned = some v → (applyNoteUpdate u now e).is_pinned = some v)
  ∧ (u.tags = none → (applyNoteUpdate u now e).tags = e.tags)
  ∧ (∀ v, u.tags = some v → (applyNoteUpdate u now e).tags = some v)
  ∧ (u.color = none → (applyNoteUpdate u now e).color = e.color)
  ∧ (∀ v, u.color = some v → (applyNoteUpdate u now e).color = some v)

/-- Frame property of an update that supplies no fields: it still succeeds,
keeps every other note, and only refreshes the target note's `updated_at`. -/
def emptyUpdateFrame (store : List NoteDoc) (note_id user_id : String)
    (now : Int) : Prop :=
  (update_note store note_id user_id updateNothing now).1 = true
  ∧ (∀ d ∈ store, d.id ≠ note_id →
      d ∈ (update_note store note_id user_id updateNothing now).2)
  ∧ (∀ d ∈ store, d.id = note_id →
      ∃ d' ∈ (update_note store note_id user_id updateNothing now).2,
        d'.updated_at = some now
        ∧ d'.title = d.title ∧ d'.content = d.content ∧ d'.tags = d.tags
        ∧ d'.color = d.color ∧ d'.is_pinned = d.is_pinned ∧ d'.id = d.id
        ∧ d'.user_id = d.user_id ∧ d'.created_at = d.created_at)

/-! Properties of the sort comparison. -/

theorem noteLe_total (a b : NoteDoc) : noteLe a b || noteLe b a := by
  unfold noteLe
  cases pinnedKey a <;> cases pinnedKey b <;> simp
  all_goals omega

theorem noteLe_trans (a b c : NoteDoc) :
    noteLe a b → noteLe b c → noteLe a c := by
  unfold noteLe
  cases pinnedKey a <;> cases pinnedKey b <;> cases pinnedKey c <;> simp <;> omega

theorem noteLe_iff_specBefore (a b : NoteDoc) : noteLe a b = true ↔ specBefore a b := by
  unfold noteLe specBefore pinnedKey specPinned
  have ha : timeKey a = -(specTime a) := by
    unfold timeKey specTime
    cases a.updated_at <;> rfl
  have hb : timeKey b = -(specTime b) := by
    unfold timeKey specTime
    cases b.updated_at <;> rfl
  rw [ha, hb]
  cases a.is_pinned.getD false <;> cases b.is_pinned.getD false <;> simp <;> omega

theorem pairwise_specBefore_mergeSort (l : List NoteDoc) :
    (l.mergeSort noteLe).Pairwise specBefore :=
  (List.sorted_mergeSort noteLe_trans noteLe_total l).imp
    (fun h => (noteLe_iff_specBefore _ _).mp h)

unseal List.merge List.mergeSort in
/-- C1. The listing sorts the post-search notes with the two-key comparator
(pinned first, then most recently updated first, absent `updated_at` counting
as epoch): the sorted list is a permutation of the filtered set, consecutive
elements of every returned page respect the spec comparator, and on the
spec's example notes A (pinned, 10), B (unpinned, 20), C (pinned, 5) the
listing returns [A, C, B]. -/
theorem listing_sorts_two_key (store : List NoteDoc) (user_id : String)
    (search : Option String) (page page_size : Nat) :
    ((((queryByOwner store user_id).filter (keepNote search)).mergeSort noteLe).Perm
        ((queryByOwner store user_id).filter (keepNote search)))
    ∧ (((queryByOwner store user_id).filter (keepNote search)).mergeSort noteLe).Pairwise
        specBefore
    ∧ (get_user_notes store user_id search page page_size).notes.Pairwise specBefore
    ∧ (get_user_notes [noteA, noteB, noteC] "u1" none 1 20).notes = [noteA, noteC, noteB] := by
  refine ⟨List.mergeSort_perm _ _, pairwise_specBefore_mergeSort _, ?_, by decide⟩
  show ((((queryByOwner store user_id).filter (keepNote search)).mergeSort noteLe).drop
      ((page - 1) * page_size)).take page_size |>.Pairwise specBefore
  exact ((pairwise_specBefore_mergeSort _).sublist
    ((List.take_sublist _ _).trans (List.drop_sublist _ _)))

theorem get_user_notes_notes_eq (store : List NoteDoc) (user_id : String)
    (search : Option String) (page page_size : Nat) :
    (get_user_notes store user_id search page page_size).notes
      = ((sortedNotes store user_id search).drop ((page - 1) * page_size)).take page_size := rfl

theorem get_user_notes_total_eq (store : List NoteDoc) (user_id : String)
    (search : Option String) (page page_size : Nat) :
    (get_user_notes store user_id search page page_size).total
      = (sortedNotes store user_id search).length := rfl

theorem sortedNotes_length (store : List NoteDoc) (user_id : String)
    (search : Option String) :
    (sortedNotes store user_id search).length = (filteredNotes store user_id search).length :=
  List.length_mergeSort _

/-- C2. With `page ≥ 1` and `page_size ∈ [1,100]`, the listing returns
`total` = size of the filtered (post-search, pre-pagination) set, and its
`notes` are exactly the slice `[(page-1)*page_size, (page-1)*page_size +
page_size)` of the sorted list, clamped to the available range; a start
offset at or past the end yields an empty page with the same `total`. -/
theorem listing_paginates (store : List NoteDoc) (user_id : String)
    (search : Option String) (page page_size : Nat)
    (hp : 1 ≤ page) (hs1 : 1 ≤ page_size) (hs2 : page_size ≤ 100) :
    (get_user_notes store user_id search page page_size).total
        = (filteredNotes store user_id search).length
    ∧ (get_user_notes store user_id search page page_size).notes.length
        = min page_size
            ((filteredNotes store user_id search).length - (page - 1) * page_size)
    ∧ (∀ i, i < page_size →
        (get_user_notes store user_id search page page_size).notes[i]?
          = (sortedNotes store user_id search)[(page - 1) * page_size + i]?)
    ∧ ((filteredNotes store user_id search).length ≤ (page - 1) * page_size →
        (get_user_notes store user_id search page page_size).notes = []
        ∧ (get_user_notes store user_id search page page_size).total
            = (filteredNotes store user_id search).length) := by
  refine ⟨?_, ?_, ?_, ?_⟩
  · rw [get_user_notes_total_eq, sortedNotes_length]
  · rw [get_user_notes_notes_eq, List.length_take, List.length_drop, sortedNotes_length]
  · intro i hi
    rw [get_user_notes_notes_eq, List.getElem?_take_of_lt hi, List.getElem?_drop]
  · intro h
    rw [get_user_notes_notes_eq, get_user_notes_total_eq, sortedNotes_length]
    refine ⟨?_, rfl⟩
    rw [List.drop_eq_nil_of_le, List.take_nil]
    rw [sortedNotes_length]
    exact h

/-- Witness for C2: a store with a single matching note, `page = 2`,
`page_size = 1`. -/
theorem listing_paginates_witness :
    (1:Nat) ≤ 2 ∧ (1:Nat) ≤ 1 ∧ (1:Nat) ≤ 100 ∧
    ((get_user_notes [noteA, noteB] "u1" none 2 1).total
        = (filteredNotes [noteA, noteB] "u1" none).length
    ∧ (get_user_notes [noteA, noteB] "u1" none 2 1).notes.length
        = min 1 ((filteredNotes [noteA, noteB] "u1" none).length - (2 - 1) * 1)
    ∧ (∀ i, i < 1 →
        (get_user_notes [noteA, noteB] "u1" none 2 1).notes[i]?
          = (sortedNotes [noteA, noteB] "u1" none)[(2 - 1) * 1 + i]?)
    ∧ ((filteredNotes [noteA, noteB] "u1" none).length ≤ (2 - 1) * 1 →
        (get_user_notes [noteA, noteB] "u1" none 2 1).notes = []
        ∧ (get_user_notes [noteA, noteB] "u1" none 2 1).total
            = (filteredNotes [noteA, noteB] "u1" none).length)) :=
  ⟨by decide, by decide, by decide,
    listing_paginates [noteA, noteB] "u1" none 2 1 (by decide) (by decide) (by decide)⟩

theorem strContains_iff_substring (hay needle : String) :
    strContains hay needle = true ↔ needle.data <:+: hay.data := by
  unfold strContains
  rw [List.any_eq_true]
  constructor
  · rintro ⟨i, -, hpre⟩
    exact (List.isPrefixOf_iff_prefix.mp hpre).isInfix.trans
      (List.drop_suffix i hay.data).isInfix
  · rintro ⟨s, t, hst⟩
    refine ⟨s.length, List.mem_range.mpr ?_, List.isPrefixOf_iff_prefix.mpr ?_⟩
    · have : s.length + (needle.data.length + t.length) = hay.data.length := by
        rw [← hst]
        simp [Nat.add_assoc]
      omega
    · rw [← hst, List.append_assoc, List.drop_left]
      exact ⟨t, rfl⟩

theorem matchesSearch_iff (s : String) (d : NoteDoc) :
    matchesSearch s d = true ↔ specMatches s d := by
  unfold matchesSearch specMatches
  rw [Bool.or_eq_true, Bool.or_eq_true, List.any_eq_true]
  rw [strContains_iff_substring, strContains_iff_substring]
  constructor
  · rintro ((h | h) | ⟨tag, htag, hc⟩)
    · exact Or.inl h
    · exact Or.inr (Or.inl h)
    · exact Or.inr (Or.inr ⟨tag, htag, (strContains_iff_substring _ _).mp hc⟩)
  · rintro (h | h | ⟨tag, htag, hc⟩)
    · exact Or.inl (Or.inl h)
    · exact Or.inl (Or.inr h)
    · exact Or.inr ⟨tag, htag, (strContains_iff_substring _ _).mpr hc⟩

/-- C3. For a non-empty search term the listing keeps a note iff the
lower-cased term is a substring of the lower-cased title, of the lower-cased
content, or of some lower-cased tag entry (pure substring containment); an
absent or empty search term keeps every note. -/
theorem listing_search_filter (store : List NoteDoc) (user_id s : String)
    (d : NoteDoc) (hs : s ≠ "") :
    (keepNote (some s) d = true ↔ specMatches s d)
    ∧ filteredNotes store user_id (some s)
        = (queryByOwner store user_id).filter (fun d => decide (specMatches s d))
    ∧ filteredNotes store user_id none = queryByOwner store user_id
    ∧ filteredNotes store user_id (some "") = queryByOwner store user_id := by
  have hkeep : ∀ e : NoteDoc, keepNote (some s) e = true ↔ specMatches s e := by
    intro e
    have hdef : keepNote (some s) e = if s = "" then true else matchesSearch s e := rfl
    rw [hdef, if_neg hs]
    exact matchesSearch_iff s e
  refine ⟨hkeep d, ?_, ?_, ?_⟩
  · unfold filteredNotes
    apply List.filter_congr
    intro e _
    rw [Bool.eq_iff_iff, decide_eq_true_eq]
    exact hkeep e
  · unfold filteredNotes keepNote
    exact List.filter_eq_self.mpr (fun e _ => rfl)
  · unfold filteredNotes
    exact List.filter_eq_self.mpr (fun e _ => by rfl)

/-- Witness for C3: the spec's example, a note tagged `"Work"` matched by the
search term `"wor"`. -/
theorem listing_search_filter_witness :
    keepNote (some "wor") { noteA with tags := some ["Work"] } = true :=
  ((listing_search_filter [] "u1" "wor" { noteA with tags := some ["Work"] }
      (by decide)).1).mpr
    (Or.inr (Or.inr ⟨"Work", by decide, by decide⟩))

/-- C4. A listing call with `page < 1` or `page_size` outside `[1,100]` fails
with a validation error for every possible store content (so the outcome is
fixed before, and independent of, any store retrieval), and never produces a
result slice. -/
theorem listing_validates_pagination (store : List NoteDoc) (user_id : String)
    (search : Option String) (page page_size : Int)
    (h : page < 1 ∨ page_size < 1 ∨ page_size > 100) :
    get_notes_endpoint store user_id search page page_size
        = Except.error ApiError.validationError
    ∧ (∀ r, get_notes_endpoint store user_id search page page_size ≠ Except.ok r)
    ∧ get_notes_endpoint store user_id search page page_size
        = get_notes_endpoint [] user_id search page page_size := by
  have hcond : (page < 1 || page_size < 1 || decide (page_size > 100)) = true := by
    rcases h with h | h | h <;> simp [h]
  constructor
  · unfold get_notes_endpoint
    rw [if_pos]
    simpa using hcond
  constructor
  · intro r hr
    unfold get_notes_endpoint at hr
    rw [if_pos (by simpa using hcond)] at hr
    exact Except.noConfusion hr
  · unfold get_notes_endpoint
    rw [if_pos (by simpa using hcond), if_pos (by simpa using hcond)]

/-- Witness for C4: `page = 0` is rejected. -/
theorem listing_validates_pagination_witness :
    ((0:Int) < 1 ∨ (20:Int) < 1 ∨ (20:Int) > 100)
    ∧ (get_notes_endpoint [noteA] "u1" none 0 20
        = Except.error ApiError.validationError
    ∧ (∀ r, get_notes_endpoint [noteA] "u1" none 0 20 ≠ Except.ok r)
    ∧ get_notes_endpoint [noteA] "u1" none 0 20
        = get_notes_endpoint [] "u1" none 0 20) :=
  ⟨Or.inl (by decide),
    listing_validates_pagination [noteA] "u1" none 0 20 (Or.inl (by decide))⟩

/-- C5. Ownership isolation: every note the listing returns carries the
requesting user's id. -/
theorem listing_ownership_isolation (store : List NoteDoc) (user_id : String)
    (search : Option String) (page page_size : Nat) (d : NoteDoc)
    (hd : d ∈ (get_user_notes store user_id search page page_size).notes) :
    d.user_id = some user_id := by
  rw [get_user_notes_notes_eq] at hd
  have h1 : d ∈ sortedNotes store user_id search :=
    ((List.take_sublist _ _).trans (List.drop_sublist _ _)).subset hd
  have h2 : d ∈ filteredNotes store user_id search := by
    unfold sortedNotes at h1
    exact List.mem_mergeSort.mp h1
  have h3 : d ∈ queryByOwner store user_id := by
    have h2' : d ∈ (queryByOwner store user_id).filter (keepNote search) := h2
    exact List.mem_of_mem_filter h2'
  have h4 : (d.user_id == some user_id) = true := by
    have h3' : d ∈ store.filter (fun x => x.user_id == some user_id) := h3
    exact (List.mem_filter.mp h3').2
  exact eq_of_beq h4

unseal List.merge List.mergeSort in
/-- Witness for C5: the only note returned for owner `u1` from a mixed store
is owned by `u1`. -/
theorem listing_ownership_isolation_witness :
    noteA ∈ (get_user_notes [{ noteB with user_id := some "u2" }, noteA]
        "u1" none 1 20).notes
    ∧ noteA.user_id = some "u1" :=
  ⟨by decide,
    listing_ownership_isolation [{ noteB with user_id := some "u2" }, noteA]
      "u1" none 1 20 noteA (by decide)⟩

/-- C6. Not-found and ownership mismatch are indistinguishable: whether no
stored document has the requested id, or every document with that id is owned
by someone else, `get_note_by_id` returns `none`, and `update_note` and
`delete_note` report failure (`False`) leaving the store unchanged — never a
distinguishable permission error. -/
theorem unified_not_found (store : List NoteDoc) (note_id user_id : String)
    (h : (∀ d ∈ store, d.id ≠ note_id)
        ∨ (∀ d ∈ store, d.id = note_id → d.user_id ≠ some user_id)) :
    get_note_by_id store note_id user_id = none
    ∧ (∀ u now, update_note store note_id user_id u now = (false, store))
    ∧ delete_note store note_id user_id = (false, store) := by
  have hget : get_note_by_id store note_id user_id = none := by
    unfold get_note_by_id
    cases hf : store.find? (fun d => d.id == note_id) with
    | none => rfl
    | some d =>
        have hmem : d ∈ store := List.mem_of_find?_eq_some hf
        have hp := List.find?_some hf
        have hid : d.id = note_id := eq_of_beq (by simpa using hp)
        have hne : d.user_id ≠ some user_id := by
          rcases h with h | h
          · exact absurd hid (h d hmem)
          · exact h d hmem hid
        simp only []
        rw [if_neg (by simpa using hne)]
  refine ⟨hget, ?_, ?_⟩
  · intro u now
    unfold update_note
    rw [hget]
  · unfold delete_note
    rw [hget]

/-- Witness for C6: a store holding only a note of user `u1`, queried by
user `u2` with that note's id. -/
theorem unified_not_found_witness :
    (((∀ d ∈ [noteA], d.id ≠ "a")
        ∨ (∀ d ∈ [noteA], d.id = "a" → d.user_id ≠ some "u2")))
    ∧ (get_note_by_id [noteA] "a" "u2" = none
    ∧ (∀ u now, update_note [noteA] "a" "u2" u now = (false, [noteA]))
    ∧ delete_note [noteA] "a" "u2" = (false, [noteA])) :=
  ⟨Or.inr (by decide),
    unified_not_found [noteA] "a" "u2" (Or.inr (by decide))⟩

theorem update_note_ok (store : List NoteDoc) (note_id user_id : String)
    (u : NoteUpdateData) (now : Int) (d₀ : NoteDoc)
    (h : get_note_by_id store note_id user_id = some d₀) :
    update_note store note_id user_id u now
      = (true, store.map
          (fun d => if d.id == note_id then applyNoteUpdate u now d else d)) := by
  unfold update_note
  rw [h]

theorem partialUpdateFrame_holds (u : NoteUpdateData) (now : Int) (e : NoteDoc) :
    partialUpdateFrame u now e := by
  refine ⟨rfl, rfl, rfl, rfl, ?_, ?_, ?_, ?_, ?_, ?_, ?_, ?_, ?_, ?_⟩
  all_goals first
    | (intro hn; simp [applyNoteUpdate, hn])
    | (intro v hv; simp [applyNoteUpdate, hv])

/-- C7. Updating an owned note with only a new title succeeds, changes that
note's `title` and `updated_at`, and leaves `content`, `tags`, `color`,
`is_pinned`, `id`, `user_id`, `created_at` and all other notes unchanged; in
general a partial update changes exactly the supplied (non-null) fields and
always refreshes `updated_at`. -/
theorem update_title_only_frame (store : List NoteDoc)
    (note_id user_id t : String) (now : Int) (d₀ : NoteDoc)
    (h : get_note_by_id store note_id user_id = some d₀) :
    titleOnlyUpdateFrame store note_id user_id t now
    ∧ ∀ (u : NoteUpdateData) (e : NoteDoc), partialUpdateFrame u now e := by
  have hok := update_note_ok store note_id user_id (updateTitleOnly t) now d₀ h
  refine ⟨⟨by rw [hok], ?_, ?_⟩, fun u e => partialUpdateFrame_holds u now e⟩
  · intro d hd hne
    rw [hok]
    exact List.mem_map.mpr ⟨d, hd, by rw [if_neg (by simpa using hne)]⟩
  · intro d hd hid
    rw [hok]
    refine ⟨applyNoteUpdate (updateTitleOnly t) now d,
      List.mem_map.mpr ⟨d, hd, by rw [if_pos (by simpa using hid)]⟩,
      rfl, rfl, rfl, rfl, rfl, rfl, rfl, rfl, rfl⟩

/-- Witness for C7: a title-only update of note `a` owned by `u1`. -/
theorem update_title_only_frame_witness :
    get_note_by_id [noteA] "a" "u1" = some noteA
    ∧ (titleOnlyUpdateFrame [noteA] "a" "u1" "X" 99
       ∧ ∀ (u : NoteUpdateData) (e : NoteDoc), partialUpdateFrame u 99 e) :=
  ⟨by decide, update_title_only_frame [noteA] "a" "u1" "X" 99 noteA (by decide)⟩

/-- C10. An update whose payload supplies no fields at all still succeeds and
refreshes the target note's `updated_at`, leaving every other stored field
and every other note unchanged. -/
theorem update_no_fields_frame (store : List NoteDoc)
    (note_id user_id : String) (now : Int) (d₀ : NoteDoc)
    (h : get_note_by_id store note_id user_id = some d₀) :
    emptyUpdateFrame store note_id user_id now := by
  have hok := update_note_ok store note_id user_id updateNothing now d₀ h
  refine ⟨by rw [hok], ?_, ?_⟩
  · intro d hd hne
    rw [hok]
    exact List.mem_map.mpr ⟨d, hd, by rw [if_neg (by simpa using hne)]⟩
  · intro d hd hid
    rw [hok]
    refine ⟨applyNoteUpdate updateNothing now d,
      List.mem_map.mpr ⟨d, hd, by rw [if_pos (by simpa using hid)]⟩,
      rfl, rfl, rfl, rfl, rfl, rfl, rfl, rfl, rfl⟩

/-- Witness for C10: an empty update of note `c` owned by `u1`. -/
theorem update_no_fields_frame_witness :
    get_note_by_id [noteC] "c" "u1" = some noteC
    ∧ emptyUpdateFrame [noteC] "c" "u1" 7 :=
  ⟨by decide, update_no_fields_frame [noteC] "c" "u1" 7 noteC (by decide)⟩

theorem strTrim_length_le (s : String) : (strTrim s).length ≤ s.length := by
  show ((((s.data.dropWhile Char.isWhitespace).reverse.dropWhile
      Char.isWhitespace).reverse).length) ≤ s.data.length
  rw [List.length_reverse]
  calc ((s.data.dropWhile Char.isWhitespace).reverse.dropWhile Char.isWhitespace).length
      ≤ (s.data.dropWhile Char.isWhitespace).reverse.length :=
        (List.dropWhile_sublist _).length_le
    _ = (s.data.dropWhile Char.isWhitespace).length := List.length_reverse _
    _ ≤ s.data.length := (List.dropWhile_sublist _).length_le

theorem one_le_length_of_ne_empty (s : String) (h : s ≠ "") : 1 ≤ s.length := by
  cases s with
  | mk data =>
      cases data with
      | nil => exact absurd rfl h
      | cons c cs => simp [String.length]

theorem validateTitle_ok (v t : String) (h : validateTitle v = Except.ok t) :
    t = strTrim v ∧ 1 ≤ t.length ∧ t.length ≤ 200 := by
  unfold validateTitle validate_not_empty at h
  by_cases h1 : v.length < 1 || v.length > 200
  · rw [if_pos h1] at h
    exact absurd h (by intro hc; exact Except.noConfusion hc)
  · rw [if_neg h1] at h
    by_cases h2 : v = "" || strTrim v = ""
    · rw [if_pos h2] at h
      exact absurd h (by intro hc; exact Except.noConfusion hc)
    · rw [if_neg h2] at h
      have ht : strTrim v = t := by
        injection h
      subst ht
      have hne : strTrim v ≠ "" := by
        intro hc
        exact h2 (by simp [hc])
      refine ⟨rfl, one_le_length_of_ne_empty _ hne, ?_⟩
      have hlt := strTrim_length_le v
      have hle : v.length ≤ 200 := by
        simp only [Bool.or_eq_true, decide_eq_true_eq, not_or] at h1
        omega
      omega

theorem validateTitle_blank (v : String) (h : strTrim v = "") :
    ∃ e, validateTitle v = Except.error e := by
  unfold validateTitle validate_not_empty
  by_cases h1 : v.length < 1 || v.length > 200
  · rw [if_pos h1]
    exact ⟨_, rfl⟩
  · rw [if_neg h1, if_pos (by simp [h])]
    exact ⟨_, rfl⟩

theorem validateContent_blank (v : String) (h : strTrim v = "") :
    ∃ e, validateContent v = Except.error e := by
  unfold validateContent validate_not_empty
  by_cases h1 : v.length < 1 || v.length > 10000
  · rw [if_pos h1]
    exact ⟨_, rfl⟩
  · rw [if_neg h1, if_pos (by simp [h])]
    exact ⟨_, rfl⟩

theorem parseNoteCreate_blank (i : NoteCreateInput)
    (h : strTrim i.title = "" ∨ strTrim i.content = "") :
    ∃ e, parseNoteCreate i = Except.error e := by
  unfold parseNoteCreate
  rcases h with h | h
  · obtain ⟨e, he⟩ := validateTitle_blank i.title h
    rw [he]
    cases validateContent i.content <;> cases validateColor i.color <;> exact ⟨_, rfl⟩
  · obtain ⟨e, he⟩ := validateContent_blank i.content h
    rw [he]
    cases validateTitle i.title <;> cases validateColor i.color <;> exact ⟨_, rfl⟩

/-- C9. A create request whose title or content is empty or whitespace-only
is rejected by validation, so the store is never written (the endpoint
returns an error and no new store); an accepted title is the trimmed input
string and has between 1 and 200 characters. -/
theorem create_rejects_blank (store : List NoteDoc) (user_id : String)
    (i : NoteCreateInput) (new_id : String) (t1 t2 : Int)
    (h : strTrim i.title = "" ∨ strTrim i.content = "") :
    (∃ e, create_note_endpoint store user_id i new_id t1 t2 = Except.error e)
    ∧ (∀ r, create_note_endpoint store user_id i new_id t1 t2 ≠ Except.ok r)
    ∧ (∀ (i' : NoteCreateInput) (p : NoteCreateParsed),
        parseNoteCreate i' = Except.ok p →
        p.title = strTrim i'.title ∧ 1 ≤ p.title.length ∧ p.title.length ≤ 200) := by
  obtain ⟨e, he⟩ := parseNoteCreate_blank i h
  refine ⟨⟨e, ?_⟩, ?_, ?_⟩
  · unfold create_note_endpoint
    rw [he]
  · intro r hr
    unfold create_note_endpoint at hr
    rw [he] at hr
    exact Except.noConfusion hr
  · intro i' p hp
    unfold parseNoteCreate at hp
    cases ht : validateTitle i'.title with
    | error e' =>
        rw [ht] at hp
        cases hc : validateContent i'.content <;> rw [hc] at hp <;>
          cases hcol : validateColor i'.color <;> rw [hcol] at hp <;>
          exact Except.noConfusion hp
    | ok t =>
        rw [ht] at hp
        cases hc : validateContent i'.content with
        | error e' =>
            rw [hc] at hp
            cases hcol : validateColor i'.color <;> rw [hcol] at hp <;>
              exact Except.noConfusion hp
        | ok c =>
            rw [hc] at hp
            cases hcol : validateColor i'.color with
            | error e' =>
                rw [hcol] at hp
                exact Except.noConfusion hp
            | ok col =>
                rw [hcol] at hp
                have hpt : p.title = t := by
                  injection hp with hp'
                  rw [← hp']
                rw [hpt]
                exact validateTitle_ok i'.title t ht

/-- Witness for C9: a whitespace-only title is rejected. -/
theorem create_rejects_blank_witness :
    (strTrim "   " = "" ∨ strTrim "body" = "")
    ∧ ((∃ e, create_note_endpoint [] "u1"
          { title := "   ", content := "body", is_pinned := none,
            tags := none, color := none } "n1" 0 0 = Except.error e)
    ∧ (∀ r, create_note_endpoint [] "u1"
          { title := "   ", content := "body", is_pinned := none,
            tags := none, color := none } "n1" 0 0 ≠ Except.ok r)
    ∧ (∀ (i' : NoteCreateInput) (p : NoteCreateParsed),
        parseNoteCreate i' = Except.ok p →
        p.title = strTrim i'.title ∧ 1 ≤ p.title.length ∧ p.title.length ≤ 200)) :=
  ⟨Or.inl (by decide),
    create_rejects_blank [] "u1"
      { title := "   ", content := "body", is_pinned := none,
        tags := none, color := none } "n1" 0 0 (Or.inl (by decide))⟩

/-- C8 (amended). `create_note` takes two consecutive clock readings: it sets
`created_at` from the first and `updated_at` from the second (so the two are
equal whenever the clock does not advance in between), persists the note's
fields for the requesting user under the store-generated id, and returns that
id. -/
theorem create_note_spec (store : List NoteDoc) (m : NoteModel)
    (new_id : String) (t1 t2 : Int) :
    (create_note store m new_id t1 t2).1 = new_id
    ∧ (create_note store m new_id t1 t2).2 = store ++ [noteModelToDoc m new_id t1 t2]
    ∧ noteModelToDoc m new_id t1 t2 ∈ (create_note store m new_id t1 t2).2
    ∧ (noteModelToDoc m new_id t1 t2).created_at = some t1
    ∧ (noteModelToDoc m new_id t1 t2).updated_at = some t2
    ∧ (noteModelToDoc m new_id t1 t2).id = new_id
    ∧ (noteModelToDoc m new_id t1 t2).user_id = some m.user_id
    ∧ (noteModelToDoc m new_id t1 t2).title = some m.title
    ∧ (noteModelToDoc m new_id t1 t2).content = some m.content
    ∧ (noteModelToDoc m new_id t1 t1).created_at = (noteModelToDoc m new_id t1 t1).updated_at :=
  ⟨rfl, rfl, List.mem_append_right _ (List.mem_singleton.mpr rfl),
    rfl, rfl, rfl, rfl, rfl, rfl, rfl⟩

/-- Counterexample to C8 as frozen: on the two consecutive `datetime.utcnow()`
readings 0 and 1, the note stored by `create_note` has
`created_at ≠ updated_at`, so creation does not always assign both fields the
same timestamp. -/
theorem create_note_counterexample :
    ¬ (∀ d ∈ (create_note []
        { user_id := "u1", title := "T", content := "C", is_pinned := false,
          tags := [], color := "#FFFFFF" } "n1" 0 1).2,
        d.created_at = d.updated_at) := by decide
